import Mathlib

/-!
Verification of the GoatSync server (Go) against its specification.

This file shallowly embeds the data model and the operations of the
GoatSync repository as pure Lean functions over an explicit database
state.  Every definition is translated from the Go source:

* `internal/model/*.go`                      — record types
* `repository` package (stoken, revision, member, collection, item
  repositories, GORM based)                  — state-passing functions
* `service` package (ItemService, CollectionService, MemberService,
  ChunkService, AuthService)                 — service-layer functions
* `internal/storage` (FileStorage)           — a path-indexed file map
* `internal/crypto/etebase.go`               — BLAKE2b parameter assembly
* `internal/middleware/auth.go`              — RequireAuth

Randomness (stoken UIDs) is modelled by an injective function of the
allocation counter: the claims under study depend only on row identity,
never on the random alphabet.  SQL result ordering (ORDER BY id ASC) is
modelled by keeping the database lists sorted by id, which all sample
states respect.  External libraries (GORM, msgpack, the BLAKE2b and
NaCl primitives) are modelled by their observable inputs and outputs.
-/

/-- Errors of the Etebase protocol, from pkg/errors/etebase.go.  The
`internalError` constructor stands for non-Etebase Go errors
(e.g. a GORM record-not-found bubbling up unconverted). -/
inductive EtebaseErr where
  | userNotFound
  | userNotInit
  | badSignature
  | wrongAction (expected : String)
  | challengeExpired
  | wrongUser
  | wrongHost (expected got : String)
  | userExists
  | invalidToken
  | badStoken
  | staleStoken
  | wrongEtag (expected got : String)
  | uniqueUid
  | adminRequired
  | noWriteAccess
  | notMember
  | chunkExists
  | chunkNoContent
  | invalidRequest
  | internalError
deriving DecidableEq, Repr

/-- Stoken row (model/stoken.go): monotonic id plus opaque UID. -/
structure Stoken where
  id : Nat
  uid : String
deriving DecidableEq, Repr

/-- Collection row (model/collection.go), with optional main item. -/
structure Collection where
  id : Nat
  uid : String
  ownerId : Nat
  mainItemId : Option Nat
deriving DecidableEq, Repr

/-- CollectionItem row (model/item.go). -/
structure CollectionItem where
  id : Nat
  uid : String
  collectionId : Nat
  version : Nat
deriving DecidableEq, Repr

/-- CollectionItemRevision row (model/revision.go): nullable `current`
boolean, 1:1 stoken id. -/
structure CollectionItemRevision where
  id : Nat
  uid : String
  itemId : Nat
  stokenId : Nat
  meta : List Nat
  current : Option Bool
  deleted : Bool
deriving DecidableEq, Repr

/-- CollectionMember row (model: AccessLevel is an integer,
readOnly = 0, admin = 1, readWrite = 2). -/
structure CollectionMember where
  id : Nat
  collectionId : Nat
  userId : Nat
  stokenId : Option Nat
  accessLevel : Nat
deriving DecidableEq, Repr

/-- CollectionMemberRemoved tombstone row. -/
structure CollectionMemberRemoved where
  collectionId : Nat
  userId : Nat
  stokenId : Option Nat
deriving DecidableEq, Repr

/-- CollectionItemChunk row (model/chunk.go). -/
structure CollectionItemChunk where
  uid : String
  collectionId : Nat
  chunkFile : String
deriving DecidableEq, Repr

/-- AuthToken row (model: 40-hex key, owning user). -/
structure AuthToken where
  key : String
  userId : Nat
deriving DecidableEq, Repr

/-- User row (model/user.go), reduced to the fields the claims need. -/
structure User where
  id : Nat
  username : String
deriving DecidableEq, Repr

/-- The relational state: one list per table, kept in primary-key order,
plus the autoincrement counters of the sequences involved in the
claims. -/
structure DB where
  stokens : List Stoken
  collections : List Collection
  items : List CollectionItem
  revisions : List CollectionItemRevision
  members : List CollectionMember
  removed : List CollectionMemberRemoved
  chunks : List CollectionItemChunk
  tokens : List AuthToken
  users : List User
  nextStokenId : Nat
  nextItemId : Nat
  nextRevId : Nat
deriving DecidableEq, Repr

/-- The random stoken UID (crypto.GenerateStokenUID) modelled as an
injective function of the allocation counter. -/
def stokenUid (n : Nat) : String :=
  "stoken-" ++ toString n

/-- stokenRepository.Create: insert a fresh Stoken row; the UID is
assigned in the BeforeCreate hook. -/
def stokenCreate (db : DB) : Stoken × DB :=
  let st : Stoken := { id := db.nextStokenId, uid := stokenUid db.nextStokenId }
  (st, { db with stokens := db.stokens ++ [st], nextStokenId := db.nextStokenId + 1 })

/-- stokenRepository.GetByUID: empty UID means none (from the
beginning); a non-empty UID that does not resolve is ErrBadStoken. -/
def stokenGetByUID (db : DB) (uid : String) : Except EtebaseErr (Option Stoken) :=
  if uid == "" then .ok none
  else
    match db.stokens.find? (fun s => s.uid == uid) with
    | some s => .ok (some s)
    | none => .error .badStoken

/-- The UPDATE of revisionRepository.Create that clears the `current`
flag:  SET current = NULL WHERE item_id = itemId AND current = true,
applied to one row. -/
def markNotCurrent (itemId : Nat) (r : CollectionItemRevision) : CollectionItemRevision :=
  if r.itemId == itemId && r.current == some true then { r with current := none } else r

/-- revisionRepository.Create (collectiontype_gorm.go): inside one
database transaction, allocate a fresh Stoken, clear `current` on the
previously current revision of the item, and insert the new revision
with `current = true` and the fresh stoken id. -/
def revisionCreate (db : DB) (uid : String) (itemId : Nat) (meta : List Nat)
    (deleted : Bool) : DB :=
  let st : Stoken := { id := db.nextStokenId, uid := stokenUid db.nextStokenId }
  let cleared := db.revisions.map (markNotCurrent itemId)
  let rev : CollectionItemRevision :=
    { id := db.nextRevId, uid := uid, itemId := itemId, stokenId := st.id,
      meta := meta, current := some true, deleted := deleted }
  { db with stokens := db.stokens ++ [st],
            revisions := cleared ++ [rev],
            nextStokenId := db.nextStokenId + 1,
            nextRevId := db.nextRevId + 1 }

/-- Input of one revision creation (the caller-set fields of the Go
model value passed to revisionRepository.Create). -/
structure RevisionIn where
  uid : String
  itemId : Nat
  meta : List Nat
  deleted : Bool
deriving DecidableEq, Repr

/-- A sequence of revision creations. -/
def revisionCreateAll (db : DB) (ws : List RevisionIn) : DB :=
  ws.foldl (fun d w => revisionCreate d w.uid w.itemId w.meta w.deleted) db

/-- Whether a revision row is a current revision of item `i`. -/
def isCurrentRevOf (i : Nat) (r : CollectionItemRevision) : Bool :=
  r.itemId == i && r.current == some true

/-- Number of current revisions of item `i`. -/
def currentCount (db : DB) (i : Nat) : Nat :=
  db.revisions.countP (isCurrentRevOf i)

/-- Invariant I2: every item has at most one current revision. -/
def atMostOneCurrent (db : DB) : Prop :=
  ∀ i : Nat, currentCount db i ≤ 1

/-- CollectionMember.IsAdmin (model). -/
def isAdmin (m : CollectionMember) : Bool :=
  m.accessLevel == 1

/-- CollectionMember.CanWrite (model). -/
def canWrite (m : CollectionMember) : Bool :=
  m.accessLevel == 1 || m.accessLevel == 2

/-- memberRepository.GetByUserAndCollection. -/
def memberGetByUserAndCollection (db : DB) (userId collectionId : Nat) :
    Option CollectionMember :=
  db.members.find? (fun m => m.userId == userId && m.collectionId == collectionId)

/-- memberRepository.Delete (member_gorm.go): in one transaction, fetch
the member by id, allocate a fresh Stoken, insert a
CollectionMemberRemoved tombstone for the same (userId, collectionId),
and delete the member row. -/
def memberDelete (db : DB) (id : Nat) : Except EtebaseErr DB :=
  match db.members.find? (fun m => m.id == id) with
  | none => .error .internalError
  | some member =>
    let st : Stoken := { id := db.nextStokenId, uid := stokenUid db.nextStokenId }
    let tomb : CollectionMemberRemoved :=
      { collectionId := member.collectionId, userId := member.userId,
        stokenId := some st.id }
    .ok { db with
          stokens := db.stokens ++ [st],
          nextStokenId := db.nextStokenId + 1,
          removed := db.removed ++ [tomb],
          members := db.members.filter (fun m => !(m.id == id)) }

/-- memberRepository.GetRemovedMemberships: tombstones of the user,
restricted to stoken_id > resolved stoken when a stoken UID is given
(SQL comparison with a NULL stoken_id is false). -/
def getRemovedMemberships (db : DB) (userId : Nat) (stoken : String) :
    Except EtebaseErr (List CollectionMemberRemoved) := do
  let base := db.removed.filter (fun r => r.userId == userId)
  if stoken == "" then
    pure base
  else
    match (← stokenGetByUID db stoken) with
    | some s =>
        pure (base.filter (fun r =>
          match r.stokenId with
          | some sid => decide (s.id < sid)
          | none => false))
    | none => pure base

/-- The max-revision-stoken annotation of collectionRepository.ListForUser:
COALESCE(MAX(revision.stoken_id), 0) over the revisions of the items of
the collection. -/
def maxRevisionStoken (db : DB) (collectionId : Nat) : Nat :=
  (db.revisions.filter (fun r =>
    match db.items.find? (fun i => i.id == r.itemId) with
    | some i => i.collectionId == collectionId
    | none => false)).foldl (fun acc r => max acc r.stokenId) 0

/-- COALESCE(MAX(member.stoken_id), 0) over the joined member rows: the
join restricts to the single member row of (userId, collectionId). -/
def memberStokenOfUser (db : DB) (userId collectionId : Nat) : Nat :=
  match memberGetByUserAndCollection db userId collectionId with
  | some m => m.stokenId.getD 0
  | none => 0

/-- collectionRepository.ListForUser (collection_gorm.go): collections
where the user is a member, filtered by the max-stoken HAVING clause
when a stoken was resolved, fetched limit+1 and trimmed; when at least
one row is emitted the code CREATES A NEW STOKEN ROW and returns it as
the cursor. -/
def ListForUser (db : DB) (userId : Nat) (stokenUID : String) (limit : Nat) :
    Except EtebaseErr (List Collection × Option Stoken × Bool × DB) := do
  let limit := if limit == 0 then 50 else limit
  let stokenObj ← stokenGetByUID db stokenUID
  let base : List Collection := db.collections.filter (fun c =>
    (memberGetByUserAndCollection db userId c.id).isSome)
  let rows : List Collection :=
    match stokenObj with
    | some s => base.filter (fun c =>
        decide (s.id < maxRevisionStoken db c.id) ||
        decide (s.id < memberStokenOfUser db userId c.id))
    | none => base
  let taken := rows.take (limit + 1)
  if taken.length > limit then
    let emitted := taken.take limit
    let (st, db2) := stokenCreate db
    pure (emitted, some st, false, db2)
  else
    if taken.length > 0 then
      let (st, db2) := stokenCreate db
      pure (taken, some st, true, db2)
    else
      pure (taken, none, true, db)

/-- itemRepository.ListForCollection (item repository): items of the
collection, restricted to items having a revision with stoken_id above
the resolved stoken, fetched limit+1 and trimmed; when at least one row
is emitted the code CREATES A NEW STOKEN ROW and returns it. -/
def ListForCollection (db : DB) (collectionId : Nat) (stoken : String) (limit : Nat) :
    Except EtebaseErr (List CollectionItem × Option Stoken × Bool × DB) := do
  let limit := if limit == 0 then 50 else limit
  let stokenObj ← stokenGetByUID db stoken
  let base : List CollectionItem := db.items.filter (fun i => i.collectionId == collectionId)
  let rows : List CollectionItem :=
    match stokenObj with
    | some s => base.filter (fun i =>
        db.revisions.any (fun r => r.itemId == i.id && decide (s.id < r.stokenId)))
    | none => base
  let taken := rows.take (limit + 1)
  if taken.length > limit then
    let emitted := taken.take limit
    let (st, db2) := stokenCreate db
    pure (emitted, some st, false, db2)
  else
    if taken.length > 0 then
      let (st, db2) := stokenCreate db
      pure (taken, some st, true, db2)
    else
      pure (taken, none, true, db)

/-- Item content of a write (ContentIn, service layer). -/
structure ContentIn where
  uid : String
  meta : List Nat
  deleted : Bool
  chunks : List String
deriving DecidableEq, Repr

/-- One item write of a batch or transaction request (ItemBatchIn). -/
structure ItemBatchIn where
  uid : String
  version : Nat
  etag : Option String
  content : ContentIn
deriving DecidableEq, Repr

/-- itemRepository.GetByUID. -/
def itemGetByUID (db : DB) (collectionId : Nat) (uid : String) :
    Option CollectionItem :=
  db.items.find? (fun i => i.collectionId == collectionId && i.uid == uid)

/-- ItemService.getItemEtag: the current revision UID, or the empty
string when the item has no current revision. -/
def getItemEtag (db : DB) (item : CollectionItem) : String :=
  match db.revisions.find? (fun r => r.itemId == item.id && r.current == some true) with
  | some r => r.uid
  | none => ""

/-- ItemService.processItemUpdate: get or create the item (updating the
version when it exists) and append a new revision via
revisionRepository.Create. -/
def processItemUpdate (db : DB) (collectionId : Nat) (w : ItemBatchIn) : DB :=
  match itemGetByUID db collectionId w.uid with
  | none =>
    let item : CollectionItem :=
      { id := db.nextItemId, uid := w.uid, collectionId := collectionId,
        version := w.version }
    let db2 := { db with items := db.items ++ [item], nextItemId := db.nextItemId + 1 }
    revisionCreate db2 w.content.uid item.id w.content.meta w.content.deleted
  | some item =>
    let db2 := { db with items := db.items.map (fun i =>
      if i.id == item.id then { i with version := w.version } else i) }
    revisionCreate db2 w.content.uid item.id w.content.meta w.content.deleted

/-- The per-item loop of ItemService.TransactionItems: validate the
etag of each write (only when the item exists), then process it.  The
returned state carries every mutation performed before a failure, since
the Go loop runs without an enclosing database transaction. -/
def transactionLoop (db : DB) (collectionId : Nat) :
    List ItemBatchIn → DB × Option EtebaseErr
  | [] => (db, none)
  | w :: rest =>
    match w.etag with
    | some e =>
      match itemGetByUID db collectionId w.uid with
      | some existing =>
        let currentEtag := getItemEtag db existing
        if currentEtag != e then (db, some (.wrongEtag e currentEtag))
        else transactionLoop (processItemUpdate db collectionId w) collectionId rest
      | none => transactionLoop (processItemUpdate db collectionId w) collectionId rest
    | none => transactionLoop (processItemUpdate db collectionId w) collectionId rest

/-- ItemService.TransactionItems: resolve the collection, check
membership and write access, then run the per-item loop. -/
def TransactionItems (db : DB) (collectionUID : String) (userId : Nat)
    (items : List ItemBatchIn) : DB × Option EtebaseErr :=
  match db.collections.find? (fun c => c.uid == collectionUID) with
  | none => (db, some .notMember)
  | some col =>
    match memberGetByUserAndCollection db userId col.id with
    | none => (db, some .notMember)
    | some member =>
      if !(canWrite member) then (db, some .noWriteAccess)
      else transactionLoop db col.id items

/-- CollectionOut of the service layer (collectionToOut only fills the
main item UID and version; accessLevel and stoken are TODO constants in
the source). -/
structure CollectionOut where
  itemUid : String
  itemVersion : Nat
  accessLevel : String
  stoken : String
deriving DecidableEq, Repr

/-- CollectionListResponse of the service layer.  `removedMemberships`
carries the UIDs of RemovedOut values; the Go zero value (never
assigned) is the empty list. -/
structure CollectionListResponse where
  data : List CollectionOut
  stoken : Option String
  done : Bool
  removedMemberships : List String
deriving DecidableEq, Repr

/-- CollectionService.collectionToOut. -/
def collectionToOut (db : DB) (c : Collection) : CollectionOut :=
  match c.mainItemId.bind (fun mid => db.items.find? (fun i => i.id == mid)) with
  | some it =>
    { itemUid := it.uid, itemVersion := it.version,
      accessLevel := "readWrite", stoken := "" }
  | none =>
    { itemUid := "", itemVersion := 0,
      accessLevel := "readWrite", stoken := "" }

/-- CollectionService.ListCollections (service/collection.go): call the
repository, map the rows, forward stoken and done.  The
RemovedMemberships field of the response struct is never assigned in
the source, so it stays at its zero value. -/
def ListCollections (db : DB) (userId : Nat) (stoken : String) (limit : Nat) :
    Except EtebaseErr (CollectionListResponse × DB) := do
  let (collections, newStoken, done, db2) ← ListForUser db userId stoken limit
  pure ({ data := collections.map (collectionToOut db2),
          stoken := newStoken.map (fun s => s.uid),
          done := done,
          removedMemberships := [] }, db2)

/-- MemberService.RemoveMember (service/member.go): resolves the
collection and checks that the caller is an admin member; the body that
should look up the target user and remove them is a TODO stub in the
source, so the function returns success without touching the state. -/
def RemoveMember (db : DB) (collectionUID : String) (username : String)
    (userId : Nat) : DB × Option EtebaseErr :=
  match db.collections.find? (fun c => c.uid == collectionUID) with
  | none => (db, some .notMember)
  | some col =>
    match memberGetByUserAndCollection db userId col.id with
    | none => (db, some .adminRequired)
    | some adminMember =>
      if !(isAdmin adminMember) then (db, some .adminRequired)
      else (db, none)

/-- The content store (storage.FileStorage), as a map from paths to
byte lists. -/
abbrev FS := List (String × List Nat)

/-- os.Create plus io.Copy of SaveChunkFromReader: creates or truncates
the file at the path, then writes the data (also when it is empty). -/
def fsSave (fs : FS) (path : String) (data : List Nat) : FS :=
  (fs.filter (fun e => !(e.fst == path))) ++ [(path, data)]

/-- FileStorage.ChunkPath. -/
def chunkPath (basePath : String) (userId : Nat) (collectionUID chunkUID : String) :
    String :=
  if chunkUID.length < 2 then
    basePath ++ "/user_" ++ toString userId ++ "/" ++ collectionUID ++ "/" ++ chunkUID
  else
    basePath ++ "/user_" ++ toString userId ++ "/" ++ collectionUID ++ "/" ++
      (chunkUID.take 2) ++ "/" ++ (chunkUID.drop 2)

/-- ChunkService.UploadChunk (service/chunk.go): resolve the collection,
check membership and write access, reject when a chunk row with the
same (collectionId, chunkUid) exists, otherwise store the body bytes
(of any length) and create the chunk row. -/
def UploadChunk (db : DB) (fs : FS) (basePath collectionUID itemUID chunkUID : String)
    (userId : Nat) (data : List Nat) : DB × FS × Option EtebaseErr :=
  match db.collections.find? (fun c => c.uid == collectionUID) with
  | none => (db, fs, some .notMember)
  | some col =>
    match memberGetByUserAndCollection db userId col.id with
    | none => (db, fs, some .notMember)
    | some member =>
      if !(canWrite member) then (db, fs, some .noWriteAccess)
      else
        match db.chunks.find? (fun ch => ch.collectionId == col.id && ch.uid == chunkUID) with
        | some _ => (db, fs, some .chunkExists)
        | none =>
          let path := chunkPath basePath col.ownerId collectionUID chunkUID
          let fs2 := fsSave fs path data
          let chunk : CollectionItemChunk :=
            { uid := chunkUID, collectionId := col.id, chunkFile := path }
          ({ db with chunks := db.chunks ++ [chunk] }, fs2, none)

/-- AuthService.GetUserByToken: look the token key up verbatim and
return the owning user; unknown keys are ErrInvalidToken. -/
def GetUserByToken (db : DB) (tokenKey : String) : Except EtebaseErr User :=
  match db.tokens.find? (fun t => t.key == tokenKey) with
  | none => .error .invalidToken
  | some t =>
    match db.users.find? (fun u => u.id == t.userId) with
    | some u => .ok u
    | none => .error .invalidToken

/-- middleware.RequireAuth: read the Authorization header value and
pass it UNCHANGED to GetUserByToken; an empty header is
ErrInvalidToken.  The source performs no stripping of a Token
marker. -/
def RequireAuth (db : DB) (authorizationHeader : String) : Except EtebaseErr User :=
  if authorizationHeader == "" then .error .invalidToken
  else GetUserByToken db authorizationHeader

/-- strings.Split(host, ":")[0] of the login host comparison. -/
def hostWithoutPort (h : String) : String :=
  String.mk (h.toList.takeWhile (fun c => c != ':'))

/-- The decoded challenge map of the login flow; each field is some
value exactly when the msgpack value is present and the numeric
coercion (toInt64 / toUint64) succeeds. -/
structure ChallengeData where
  timestamp : Option Int
  userId : Option Nat
deriving DecidableEq, Repr

/-- The outcomes of the external crypto and codec calls made by
AuthService.validateLoginRequest, plus the client-controlled response
fields. -/
structure LoginValidationInput where
  decryptedChallenge : Option (List Nat)
  decodedChallenge : Option ChallengeData
  action : String
  responseHost : String
  now : Int
  signatureValid : Bool
deriving DecidableEq, Repr

/-- AuthService.validateLoginRequest (service layer): the validation
pipeline run for login and password change.  Returns none when the
request is valid and the produced error otherwise, in source order:
decryption, challenge decode, action, timestamp coercion and expiry,
userId coercion and match, host (skipped in debug mode), Ed25519
signature. -/
def validateLoginRequest (inp : LoginValidationInput) (userId : Nat)
    (expectedAction : String) (hostFromRequest : String)
    (challengeValidSeconds : Int) (debug : Bool) : Option EtebaseErr :=
  match inp.decryptedChallenge with
  | none => some .badSignature
  | some _ =>
    match inp.decodedChallenge with
    | none => some .invalidRequest
    | some cd =>
      if inp.action != expectedAction then some (.wrongAction expectedAction)
      else
        match cd.timestamp with
        | none => some .invalidRequest
        | some ts =>
          if challengeValidSeconds < inp.now - ts then some .challengeExpired
          else
            match cd.userId with
            | none => some .invalidRequest
            | some uid =>
              if uid != userId then some .wrongUser
              else
                if !debug &&
                    (hostWithoutPort inp.responseHost != hostWithoutPort hostFromRequest)
                then some (.wrongHost (hostWithoutPort hostFromRequest)
                                      (hostWithoutPort inp.responseHost))
                else if !inp.signatureValid then some .badSignature
                else none

/-- The parameters of one call into the external BLAKE2b library
(github.com/dchest/blake2b Config plus the hashed input).  The library
is outside the repository; the embedding treats a call as observable
through these parameters. -/
structure Blake2bParams where
  size : Nat
  key : List Nat
  salt : List Nat
  person : List Nat
  input : List Nat
deriving DecidableEq, Repr

/-- The UTF-8 bytes of the personalization constant etebase-auth. -/
def personalizationAuth : List Nat :=
  [101, 116, 101, 98, 97, 115, 101, 45, 97, 117, 116, 104]

/-- Etebase.GetEncryptionKey (internal/crypto/etebase.go), parametric
in the BLAKE2b primitive.  Step 1: BLAKE2b-512 of the secret, first 32
bytes as the key.  Step 2: keyed BLAKE2b of the empty input with a
16-byte salt buffer filled from the start of the salt (zero bytes
remain at the tail) and the 16-byte zero-padded personalization,
output size 32. -/
def GetEncryptionKey (blake2b : Blake2bParams → List Nat)
    (secret salt : List Nat) : List Nat :=
  let masterKey := (blake2b { size := 64, key := [], salt := [], person := [],
                              input := secret }).take 32
  let saltLen := min salt.length 16
  let saltBytes := salt.take saltLen ++ List.replicate (16 - saltLen) 0
  let person := personalizationAuth ++
    List.replicate (16 - personalizationAuth.length) 0
  blake2b { size := 32, key := masterKey, salt := saltBytes,
            person := person, input := [] }

/-- Modelled from the spec: deriveEncryptionKey as the claim words it,
with the salt LEFT-padded with zeros when shorter than 16 bytes
(zeros before the salt bytes) and truncated when longer. -/
def deriveEncryptionKeyClaim (blake2b : Blake2bParams → List Nat)
    (secret salt : List Nat) : List Nat :=
  let master := (blake2b { size := 64, key := [], salt := [], person := [],
                           input := secret }).take 32
  let s16 := salt.take 16
  let saltParam := List.replicate (16 - s16.length) 0 ++ s16
  let personParam := personalizationAuth ++
    List.replicate (16 - personalizationAuth.length) 0
  blake2b { size := 32, key := master, salt := saltParam,
            person := personParam, input := [] }

/-- Modelled from the spec, amended: the salt buffer holds the first 16
bytes of the salt left-aligned, zero-padded on the right when the salt
is shorter than 16 bytes. -/
def deriveEncryptionKeyAmended (blake2b : Blake2bParams → List Nat)
    (secret salt : List Nat) : List Nat :=
  let master := (blake2b { size := 64, key := [], salt := [], person := [],
                           input := secret }).take 32
  let s16 := salt.take 16
  let saltParam := s16 ++ List.replicate (16 - s16.length) 0
  let personParam := personalizationAuth ++
    List.replicate (16 - personalizationAuth.length) 0
  blake2b { size := 32, key := master, salt := saltParam,
            person := personParam, input := [] }

/-- The empty database. -/
def emptyDB : DB :=
  { stokens := [], collections := [], items := [], revisions := [],
    members := [], removed := [], chunks := [], tokens := [], users := [],
    nextStokenId := 1, nextItemId := 1, nextRevId := 1 }

lemma markNotCurrent_not_current (itemId : Nat) (r : CollectionItemRevision) :
    isCurrentRevOf itemId (markNotCurrent itemId r) = false := by
  unfold markNotCurrent isCurrentRevOf
  by_cases h1 : r.itemId = itemId
  · by_cases h2 : r.current = some true
    · simp [h1, h2]
    · simp [h1, h2]
  · simp [h1]

lemma countP_map_markNotCurrent_self (l : List CollectionItemRevision) (itemId : Nat) :
    (l.map (markNotCurrent itemId)).countP (isCurrentRevOf itemId) = 0 := by
  rw [List.countP_eq_zero]
  intro a ha
  rcases List.mem_map.mp ha with ⟨r, _, rfl⟩
  simp [markNotCurrent_not_current]

lemma countP_map_markNotCurrent_other (l : List CollectionItemRevision)
    (itemId i : Nat) (hne : i ≠ itemId) :
    (l.map (markNotCurrent itemId)).countP (isCurrentRevOf i) =
      l.countP (isCurrentRevOf i) := by
  rw [List.countP_map]
  apply List.countP_congr
  intro r _
  unfold markNotCurrent isCurrentRevOf Function.comp
  by_cases h1 : r.itemId = itemId
  · by_cases h2 : r.current = some true
    · simp [h1, h2, hne, Ne.symm hne]
    · simp [h1, h2]
  · simp [h1]

lemma currentCount_revisionCreate (db : DB) (uid : String) (itemId : Nat)
    (meta : List Nat) (deleted : Bool) (i : Nat) :
    currentCount (revisionCreate db uid itemId meta deleted) i =
      if i = itemId then 1 else currentCount db i := by
  unfold currentCount revisionCreate
  simp only [List.countP_append]
  by_cases h : i = itemId
  · subst h
    rw [countP_map_markNotCurrent_self]
    simp [isCurrentRevOf]
  · rw [countP_map_markNotCurrent_other _ _ _ h]
    have hrev : isCurrentRevOf i
        { id := db.nextRevId, uid := uid, itemId := itemId,
          stokenId := db.nextStokenId, meta := meta, current := some true,
          deleted := deleted } = false := by
      simp [isCurrentRevOf, Ne.symm h]
    rw [List.countP_cons]
    simp [h, hrev]

lemma atMostOneCurrent_revisionCreate (db : DB) (uid : String) (itemId : Nat)
    (meta : List Nat) (deleted : Bool) (h : atMostOneCurrent db) :
    atMostOneCurrent (revisionCreate db uid itemId meta deleted) := by
  intro i
  rw [currentCount_revisionCreate]
  by_cases hi : i = itemId
  · simp [hi]
  · simpa [hi] using h i

lemma atMostOneCurrent_revisionCreateAll (ws : List RevisionIn) :
    ∀ db : DB, atMostOneCurrent db → atMostOneCurrent (revisionCreateAll db ws) := by
  induction ws with
  | nil => intro db h; simpa [revisionCreateAll] using h
  | cons w rest ih =>
    intro db h
    have h2 := atMostOneCurrent_revisionCreate db w.uid w.itemId w.meta w.deleted h
    simpa [revisionCreateAll] using
      ih (revisionCreate db w.uid w.itemId w.meta w.deleted) h2

/-- C3: appending a revision allocates a fresh Stoken row, inserts the
new revision with current = true and the fresh stoken id, clears
current on every previously current revision of the item (all of this
inside one database transaction, modelled as the single step
revisionCreate), and consequently every CollectionItem has at most one
revision with current = true after any sequence of revision
creations. -/
theorem revisionCreate_fresh_stoken_and_unique_current :
    (∀ (db : DB) (uid : String) (itemId : Nat) (meta : List Nat) (deleted : Bool),
      (revisionCreate db uid itemId meta deleted).stokens =
        db.stokens ++ [{ id := db.nextStokenId, uid := stokenUid db.nextStokenId }])
    ∧ (∀ (db : DB) (uid : String) (itemId : Nat) (meta : List Nat) (deleted : Bool),
      ({ id := db.nextRevId, uid := uid, itemId := itemId,
         stokenId := db.nextStokenId, meta := meta, current := some true,
         deleted := deleted } : CollectionItemRevision)
        ∈ (revisionCreate db uid itemId meta deleted).revisions)
    ∧ (∀ (db : DB) (uid : String) (itemId : Nat) (meta : List Nat) (deleted : Bool)
        (r : CollectionItemRevision), r ∈ db.revisions → r.itemId = itemId →
        r.current = some true →
        ({ r with current := none } : CollectionItemRevision)
          ∈ (revisionCreate db uid itemId meta deleted).revisions)
    ∧ (∀ (db : DB) (ws : List RevisionIn),
        atMostOneCurrent db → atMostOneCurrent (revisionCreateAll db ws)) := by
  refine ⟨?_, ?_, ?_, ?_⟩
  · intro db uid itemId meta deleted
    rfl
  · intro db uid itemId meta deleted
    simp [revisionCreate]
  · intro db uid itemId meta deleted r hr h1 h2
    have hmark : markNotCurrent itemId r = { r with current := none } := by
      simp [markNotCurrent, h1, h2]
    have hmem : markNotCurrent itemId r ∈ db.revisions.map (markNotCurrent itemId) :=
      List.mem_map_of_mem _ hr
    rw [hmark] at hmem
    exact List.mem_append_left _ hmem
  · intro db ws h
    exact atMostOneCurrent_revisionCreateAll ws db h

/-- Witness for C3 at a concrete state: two successive revision
creations for the same item starting from the empty database leave at
most one current revision for that item. -/
theorem revisionCreate_unique_current_witness :
    currentCount (revisionCreateAll emptyDB
      [ { uid := "rev-one", itemId := 1, meta := [], deleted := false },
        { uid := "rev-two", itemId := 1, meta := [], deleted := false } ]) 1 ≤ 1 :=
  revisionCreate_fresh_stoken_and_unique_current.2.2.2 emptyDB
    [ { uid := "rev-one", itemId := 1, meta := [], deleted := false },
      { uid := "rev-two", itemId := 1, meta := [], deleted := false } ]
    (by intro i; simp [currentCount, emptyDB]) 1

/-- Sample state for the listing queries: one collection with one item
whose single revision carries stoken 1 (the only existing stoken), the
user being a member; the autoincrement counters stand at 2. -/
def listSampleDB : DB :=
  { stokens := [{ id := 1, uid := stokenUid 1 }],
    collections := [{ id := 1, uid := "colA", ownerId := 1, mainItemId := none }],
    items := [{ id := 1, uid := "itemA", collectionId := 1, version := 1 }],
    revisions := [{ id := 1, uid := "revA", itemId := 1, stokenId := 1,
                    meta := [], current := some true, deleted := false }],
    members := [{ id := 1, collectionId := 1, userId := 1, stokenId := none,
                  accessLevel := 1 }],
    removed := [], chunks := [], tokens := [], users := [],
    nextStokenId := 2, nextItemId := 2, nextRevId := 2 }

/-- The state after either listing query ran on listSampleDB: a brand
new Stoken row with id 2 has been inserted. -/
def listSampleDBAfter : DB :=
  { listSampleDB with
    stokens := [{ id := 1, uid := stokenUid 1 }, { id := 2, uid := stokenUid 2 }],
    nextStokenId := 3 }

/-- C1: FALSIFIED BY THE CODE.  Both listing queries, run with no since
stoken over a page whose only emitted row carries max stoken id 1,
return a cursor stoken with id 2 that is inserted by the query itself:
the id 2 is not among the stoken rows that existed before the query ran
(second conjunct), and it differs from the max stoken id observed in
the emitted page (third conjunct).  The claim requires the cursor to be
the max emitted stoken, re-serialized, and never freshly invented. -/
theorem listing_invents_fresh_stoken :
    (ListForUser listSampleDB 1 "" 50 =
      .ok ([{ id := 1, uid := "colA", ownerId := 1, mainItemId := none }],
           some { id := 2, uid := stokenUid 2 }, true, listSampleDBAfter))
    ∧ ((listSampleDB.stokens.map Stoken.id).contains 2 = false)
    ∧ (maxRevisionStoken listSampleDB 1 = 1)
    ∧ (ListForCollection listSampleDB 1 "" 50 =
      .ok ([{ id := 1, uid := "itemA", collectionId := 1, version := 1 }],
           some { id := 2, uid := stokenUid 2 }, true, listSampleDBAfter)) :=
  ⟨rfl, rfl, rfl, rfl⟩

/-- Sample state for the transaction endpoint: collection colC, item X
whose current revision (the etag) is E1, caller 1 with readWrite
access. -/
def transactionSampleDB : DB :=
  { stokens := [{ id := 1, uid := stokenUid 1 }],
    collections := [{ id := 1, uid := "colC", ownerId := 1, mainItemId := none }],
    items := [{ id := 1, uid := "X", collectionId := 1, version := 1 }],
    revisions := [{ id := 1, uid := "E1", itemId := 1, stokenId := 1,
                    meta := [], current := some true, deleted := false }],
    members := [{ id := 1, collectionId := 1, userId := 1, stokenId := none,
                  accessLevel := 2 }],
    removed := [], chunks := [], tokens := [], users := [],
    nextStokenId := 2, nextItemId := 2, nextRevId := 2 }

/-- First write of the failing transaction: creates a fresh item A. -/
def writeA : ItemBatchIn :=
  { uid := "A", version := 1, etag := none,
    content := { uid := "RA", meta := [], deleted := false, chunks := [] } }

/-- Second write of the failing transaction: targets item X with the
stale client etag E0 while the current revision UID is E1. -/
def writeX : ItemBatchIn :=
  { uid := "X", version := 1, etag := some "E0",
    content := { uid := "RX", meta := [], deleted := false, chunks := [] } }

/-- The state the failing transaction leaves behind: item A, its
revision RA and the stoken allocated for it are persisted even though
the operation failed. -/
def transactionSampleDBAfter : DB :=
  { transactionSampleDB with
    stokens := [{ id := 1, uid := stokenUid 1 }, { id := 2, uid := stokenUid 2 }],
    items := [{ id := 1, uid := "X", collectionId := 1, version := 1 },
              { id := 2, uid := "A", collectionId := 1, version := 1 }],
    revisions := [{ id := 1, uid := "E1", itemId := 1, stokenId := 1,
                    meta := [], current := some true, deleted := false },
                  { id := 2, uid := "RA", itemId := 2, stokenId := 2,
                    meta := [], current := some true, deleted := false }],
    nextStokenId := 3, nextItemId := 3, nextRevId := 3 }

/-- C2: FALSIFIED BY THE CODE.  A transaction request whose second
write carries a stale clientEtag fails with wrong_etag carrying
expected E0 / got E1 — but the first write of the same request has
already been persisted: the returned state contains the new item A,
its revision RA and a freshly allocated stoken, none of which existed
before, because the Go loop validates and writes item by item without
an enclosing database transaction.  The claim requires that no item,
revision, or stoken rows from the request are persisted. -/
theorem transaction_conflict_persists_earlier_writes :
    (TransactionItems transactionSampleDB "colC" 1 [writeA, writeX] =
      (transactionSampleDBAfter, some (.wrongEtag "E0" "E1")))
    ∧ ((transactionSampleDB.items.map CollectionItem.uid).contains "A" = false)
    ∧ ((transactionSampleDBAfter.items.map CollectionItem.uid).contains "A" = true)
    ∧ ((transactionSampleDBAfter.revisions.map CollectionItemRevision.uid).contains
        "RA" = true)
    ∧ (transactionSampleDB.stokens.length = 1)
    ∧ (transactionSampleDBAfter.stokens.length = 2) :=
  ⟨rfl, rfl, rfl, rfl, rfl, rfl⟩

/-- C10: in transaction mode, a write carrying a clientEtag for an item
UID that does not exist in the collection is not rejected: the loop
skips the etag precondition entirely and proceeds to process the write
(first conjunct), which creates the item (second conjunct) and its
first revision with current = true (third conjunct). -/
theorem transaction_etag_on_missing_item_not_rejected :
    ∀ (db : DB) (collectionId : Nat) (w : ItemBatchIn) (rest : List ItemBatchIn)
      (e : String),
      w.etag = some e →
      itemGetByUID db collectionId w.uid = none →
      (transactionLoop db collectionId (w :: rest) =
        transactionLoop (processItemUpdate db collectionId w) collectionId rest)
      ∧ (({ id := db.nextItemId, uid := w.uid, collectionId := collectionId,
            version := w.version } : CollectionItem)
           ∈ (processItemUpdate db collectionId w).items)
      ∧ (({ id := db.nextRevId, uid := w.content.uid, itemId := db.nextItemId,
            stokenId := db.nextStokenId, meta := w.content.meta,
            current := some true, deleted := w.content.deleted } :
              CollectionItemRevision)
           ∈ (processItemUpdate db collectionId w).revisions) := by
  intro db collectionId w rest e he hn
  refine ⟨?_, ?_, ?_⟩
  · rw [transactionLoop, he, hn]
  · rw [processItemUpdate, hn]
    simp [revisionCreate]
  · rw [processItemUpdate, hn]
    simp [revisionCreate]

/-- The write used by the C10 witness. -/
def missingItemWrite : ItemBatchIn :=
  { uid := "ghost", version := 1, etag := some "someEtag",
    content := { uid := "ghostRev", meta := [], deleted := false, chunks := [] } }

/-- Witness for C10 at a concrete state: in the empty database, a write
with a clientEtag for the absent item ghost is processed and creates
the item. -/
theorem transaction_etag_on_missing_item_witness :
    (transactionLoop emptyDB 1 [missingItemWrite] =
      transactionLoop (processItemUpdate emptyDB 1 missingItemWrite) 1 [])
    ∧ (({ id := 1, uid := "ghost", collectionId := 1, version := 1 } :
          CollectionItem) ∈ (processItemUpdate emptyDB 1 missingItemWrite).items)
    ∧ (({ id := 1, uid := "ghostRev", itemId := 1, stokenId := 1, meta := [],
          current := some true, deleted := false } : CollectionItemRevision)
         ∈ (processItemUpdate emptyDB 1 missingItemWrite).revisions) :=
  transaction_etag_on_missing_item_not_rejected emptyDB 1 missingItemWrite []
    "someEtag" rfl rfl

/-- Sample state for the removed-memberships page: user 1 has been
removed from collection 2, leaving a tombstone with stoken 1;
the user currently belongs to no collection. -/
def removedSampleDB : DB :=
  { stokens := [{ id := 1, uid := stokenUid 1 }],
    collections := [], items := [], revisions := [],
    members := [],
    removed := [{ collectionId := 2, userId := 1, stokenId := some 1 }],
    chunks := [], tokens := [], users := [],
    nextStokenId := 2, nextItemId := 1, nextRevId := 1 }

/-- C4: FALSIFIED BY THE CODE.  Listing the collections of a user who
has a CollectionMemberRemoved tombstone returns removedMemberships = []
(the service never queries or assigns the field), while the
repository-level tombstone set for that user — what the claim requires
the page to carry — is nonempty. -/
theorem listCollections_omits_removed_memberships :
    (ListCollections removedSampleDB 1 "" 50 =
      .ok ({ data := [], stoken := none, done := true,
             removedMemberships := [] }, removedSampleDB))
    ∧ (getRemovedMemberships removedSampleDB 1 "" =
      .ok [{ collectionId := 2, userId := 1, stokenId := some 1 }]) :=
  ⟨rfl, rfl⟩

/-- Sample state for member removal: collection colM owned by alice
(user 1, admin member) with bob (user 2) as a readOnly member. -/
def memberSampleDB : DB :=
  { stokens := [{ id := 1, uid := stokenUid 1 }, { id := 2, uid := stokenUid 2 }],
    collections := [{ id := 1, uid := "colM", ownerId := 1, mainItemId := none }],
    items := [], revisions := [],
    members := [{ id := 1, collectionId := 1, userId := 1, stokenId := some 1,
                  accessLevel := 1 },
                { id := 2, collectionId := 1, userId := 2, stokenId := some 2,
                  accessLevel := 0 }],
    removed := [], chunks := [], tokens := [],
    users := [{ id := 1, username := "alice" }, { id := 2, username := "bob" }],
    nextStokenId := 3, nextItemId := 1, nextRevId := 1 }

/-- C5: FALSIFIED BY THE CODE.  MemberService.RemoveMember called by
the admin for the member bob reports success yet leaves the state
untouched: bob is still a member and no tombstone exists (first three
conjuncts).  The repository operation memberRepository.Delete — which
does implement the delete-plus-tombstone semantics the claim describes
— is never invoked by the service (last conjunct shows what it would
have produced). -/
theorem removeMember_is_a_stub :
    (RemoveMember memberSampleDB "colM" "bob" 1 = (memberSampleDB, none))
    ∧ ((memberSampleDB.members.map CollectionMember.userId).contains 2 = true)
    ∧ (memberSampleDB.removed = [])
    ∧ (memberDelete memberSampleDB 2 =
      .ok { memberSampleDB with
            stokens := memberSampleDB.stokens ++ [{ id := 3, uid := stokenUid 3 }],
            nextStokenId := 4,
            removed := [{ collectionId := 1, userId := 2, stokenId := some 3 }],
            members := [{ id := 1, collectionId := 1, userId := 1,
                          stokenId := some 1, accessLevel := 1 }] }) :=
  ⟨rfl, rfl, rfl, rfl⟩

/-- Sample state for chunk upload: collection colK owned by user 1 who
is a readWrite member; no chunk rows exist. -/
def chunkSampleDB : DB :=
  { stokens := [],
    collections := [{ id := 1, uid := "colK", ownerId := 1, mainItemId := none }],
    items := [], revisions := [],
    members := [{ id := 1, collectionId := 1, userId := 1, stokenId := none,
                  accessLevel := 2 }],
    removed := [], chunks := [], tokens := [], users := [],
    nextStokenId := 1, nextItemId := 1, nextRevId := 1 }

/-- The state after the zero-length upload went through: a chunk row
exists and an empty file sits in the content store. -/
def chunkSampleDBAfter : DB :=
  { chunkSampleDB with
    chunks := [{ uid := "K1chunk", collectionId := 1,
                 chunkFile := chunkPath "base" 1 "colK" "K1chunk" }] }

/-- C8: PARTLY FALSIFIED BY THE CODE.  Uploading a chunk with a
zero-length body succeeds: the service performs no emptiness check, so
the chunk row and an empty content-store file are created (first
conjunct) — the claim requires rejection with chunk_no_content.  The
duplicate half of the claim does hold: a second upload for the same
(collectionId, chunkUid) fails with chunk_exists (second conjunct). -/
theorem uploadChunk_accepts_empty_body :
    (UploadChunk chunkSampleDB [] "base" "colK" "itemI" "K1chunk" 1 [] =
      (chunkSampleDBAfter,
       [(chunkPath "base" 1 "colK" "K1chunk", [])], none))
    ∧ (UploadChunk chunkSampleDBAfter
        [(chunkPath "base" 1 "colK" "K1chunk", [])]
        "base" "colK" "itemI" "K1chunk" 1 [104, 105] =
      (chunkSampleDBAfter,
       [(chunkPath "base" 1 "colK" "K1chunk", [])], some .chunkExists)) :=
  ⟨rfl, rfl⟩

/-- Sample state for token authentication: one stored token whose key
is abc123, owned by alice. -/
def authSampleDB : DB :=
  { stokens := [], collections := [], items := [], revisions := [],
    members := [], removed := [], chunks := [],
    tokens := [{ key := "abc123", userId := 1 }],
    users := [{ id := 1, username := "alice" }],
    nextStokenId := 1, nextItemId := 1, nextRevId := 1 }

/-- C9: FALSIFIED BY THE CODE.  The middleware passes the Authorization
header to the token lookup unchanged, so the documented client format
Token abc123 is rejected with invalid_token (first conjunct) instead of
authenticating as the token owner; only the bare key authenticates
(second conjunct).  Missing headers do yield invalid_token (third
conjunct), as the claim says. -/
theorem requireAuth_does_not_strip_token_marker :
    (RequireAuth authSampleDB "Token abc123" = .error .invalidToken)
    ∧ (RequireAuth authSampleDB "abc123" = .ok { id := 1, username := "alice" })
    ∧ (RequireAuth authSampleDB "" = .error .invalidToken) :=
  ⟨rfl, rfl, rfl⟩

/-- C7: login response validation returns exactly the specified error
for each failure mode, in the order the source checks them:
(1) challenge decryption failure gives login_bad_signature;
(2) an action different from login gives wrong_action;
(3) a challenge older than challengeValidSeconds gives
challenge_expired; (4) a challenge userId different from the looked-up
user gives wrong_user; (5) outside debug mode, a response host whose
port-stripped form differs from the request host gives wrong_host
carrying both; (6) an invalid signature over the response gives
login_bad_signature. -/
theorem validateLoginRequest_error_cases :
    (∀ (inp : LoginValidationInput) (userId : Nat) (hostReq : String)
       (cvs : Int) (debug : Bool),
      inp.decryptedChallenge = none →
      validateLoginRequest inp userId "login" hostReq cvs debug =
        some .badSignature)
    ∧ (∀ (inp : LoginValidationInput) (userId : Nat) (hostReq : String)
         (cvs : Int) (debug : Bool) (bs : List Nat) (cd : ChallengeData),
      inp.decryptedChallenge = some bs →
      inp.decodedChallenge = some cd →
      inp.action ≠ "login" →
      validateLoginRequest inp userId "login" hostReq cvs debug =
        some (.wrongAction "login"))
    ∧ (∀ (inp : LoginValidationInput) (userId : Nat) (hostReq : String)
         (cvs : Int) (debug : Bool) (bs : List Nat) (cd : ChallengeData)
         (ts : Int),
      inp.decryptedChallenge = some bs →
      inp.decodedChallenge = some cd →
      inp.action = "login" →
      cd.timestamp = some ts →
      cvs < inp.now - ts →
      validateLoginRequest inp userId "login" hostReq cvs debug =
        some .challengeExpired)
    ∧ (∀ (inp : LoginValidationInput) (userId : Nat) (hostReq : String)
         (cvs : Int) (debug : Bool) (bs : List Nat) (cd : ChallengeData)
         (ts : Int) (uid : Nat),
      inp.decryptedChallenge = some bs →
      inp.decodedChallenge = some cd →
      inp.action = "login" →
      cd.timestamp = some ts →
      inp.now - ts ≤ cvs →
      cd.userId = some uid →
      uid ≠ userId →
      validateLoginRequest inp userId "login" hostReq cvs debug =
        some .wrongUser)
    ∧ (∀ (inp : LoginValidationInput) (userId : Nat) (hostReq : String)
         (cvs : Int) (bs : List Nat) (cd : ChallengeData) (ts : Int),
      inp.decryptedChallenge = some bs →
      inp.decodedChallenge = some cd →
      inp.action = "login" →
      cd.timestamp = some ts →
      inp.now - ts ≤ cvs →
      cd.userId = some userId →
      hostWithoutPort inp.responseHost ≠ hostWithoutPort hostReq →
      validateLoginRequest inp userId "login" hostReq cvs false =
        some (.wrongHost (hostWithoutPort hostReq)
                         (hostWithoutPort inp.responseHost)))
    ∧ (∀ (inp : LoginValidationInput) (userId : Nat) (hostReq : String)
         (cvs : Int) (debug : Bool) (bs : List Nat) (cd : ChallengeData)
         (ts : Int),
      inp.decryptedChallenge = some bs →
      inp.decodedChallenge = some cd →
      inp.action = "login" →
      cd.timestamp = some ts →
      inp.now - ts ≤ cvs →
      cd.userId = some userId →
      (debug = true ∨ hostWithoutPort inp.responseHost = hostWithoutPort hostReq) →
      inp.signatureValid = false →
      validateLoginRequest inp userId "login" hostReq cvs debug =
        some .badSignature) := by
  refine ⟨?_, ?_, ?_, ?_, ?_, ?_⟩
  · intro inp userId hostReq cvs debug h1
    simp [validateLoginRequest, h1]
  · intro inp userId hostReq cvs debug bs cd h1 h2 h3
    simp [validateLoginRequest, h1, h2, h3]
  · intro inp userId hostReq cvs debug bs cd ts h1 h2 h3 h4 h5
    simp [validateLoginRequest, h1, h2, h3, h4, h5]
  · intro inp userId hostReq cvs debug bs cd ts uid h1 h2 h3 h4 h5 h6 h7
    simp [validateLoginRequest, h1, h2, h3, h4, Int.not_lt.mpr h5, h6, h7]
  · intro inp userId hostReq cvs bs cd ts h1 h2 h3 h4 h5 h6 h7
    simp [validateLoginRequest, h1, h2, h3, h4, Int.not_lt.mpr h5, h6, h7]
  · intro inp userId hostReq cvs debug bs cd ts h1 h2 h3 h4 h5 h6 h7 h8
    rcases h7 with h7 | h7
    · simp [validateLoginRequest, h1, h2, h3, h4, Int.not_lt.mpr h5, h6, h7, h8]
    · simp [validateLoginRequest, h1, h2, h3, h4, Int.not_lt.mpr h5, h6, h7, h8]

/-- Witness for C7: each of the six failure modes, exercised at a
concrete input. -/
theorem validateLoginRequest_error_cases_witness :
    (validateLoginRequest
      { decryptedChallenge := none, decodedChallenge := none, action := "login",
        responseHost := "example.com", now := 0, signatureValid := true }
      1 "login" "example.com" 300 false = some .badSignature)
    ∧ (validateLoginRequest
      { decryptedChallenge := some [], decodedChallenge := some { timestamp := some 0, userId := some 1 },
        action := "evil", responseHost := "example.com", now := 0, signatureValid := true }
      1 "login" "example.com" 300 false = some (.wrongAction "login"))
    ∧ (validateLoginRequest
      { decryptedChallenge := some [], decodedChallenge := some { timestamp := some 0, userId := some 1 },
        action := "login", responseHost := "example.com", now := 301, signatureValid := true }
      1 "login" "example.com" 300 false = some .challengeExpired)
    ∧ (validateLoginRequest
      { decryptedChallenge := some [], decodedChallenge := some { timestamp := some 0, userId := some 2 },
        action := "login", responseHost := "example.com", now := 0, signatureValid := true }
      1 "login" "example.com" 300 false = some .wrongUser)
    ∧ (validateLoginRequest
      { decryptedChallenge := some [], decodedChallenge := some { timestamp := some 0, userId := some 1 },
        action := "login", responseHost := "evil.example", now := 0, signatureValid := true }
      1 "login" "sync.example.com:443" 300 false =
        some (.wrongHost (hostWithoutPort "sync.example.com:443")
                         (hostWithoutPort "evil.example")))
    ∧ (validateLoginRequest
      { decryptedChallenge := some [], decodedChallenge := some { timestamp := some 0, userId := some 1 },
        action := "login", responseHost := "example.com", now := 0, signatureValid := false }
      1 "login" "example.com" 300 false = some .badSignature) := by
  refine ⟨?_, ?_, ?_, ?_, ?_, ?_⟩
  · exact validateLoginRequest_error_cases.1 _ 1 "example.com" 300 false rfl
  · exact validateLoginRequest_error_cases.2.1 _ 1 "example.com" 300 false [] _
      rfl rfl (by decide)
  · exact validateLoginRequest_error_cases.2.2.1 _ 1 "example.com" 300 false [] _ 0
      rfl rfl rfl rfl (by decide)
  · exact validateLoginRequest_error_cases.2.2.2.1 _ 1 "example.com" 300 false [] _ 0 2
      rfl rfl rfl rfl (by decide) rfl (by decide)
  · exact validateLoginRequest_error_cases.2.2.2.2.1
      { decryptedChallenge := some [], decodedChallenge := some { timestamp := some 0, userId := some 1 },
        action := "login", responseHost := "evil.example", now := 0, signatureValid := true }
      1 "sync.example.com:443" 300 [] { timestamp := some 0, userId := some 1 } 0
      rfl rfl rfl rfl (by decide) rfl (by decide)
  · exact validateLoginRequest_error_cases.2.2.2.2.2
      { decryptedChallenge := some [], decodedChallenge := some { timestamp := some 0, userId := some 1 },
        action := "login", responseHost := "example.com", now := 0, signatureValid := false }
      1 "example.com" 300 false [] { timestamp := some 0, userId := some 1 } 0
      rfl rfl rfl rfl (by decide) rfl (Or.inr rfl) rfl

/-- C6 counterexample: CLAIM FALSIFIED AS STATED.  The source fills the
16-byte salt buffer from the start (salt bytes first, zero bytes
after), while the claim words it as left-padded with zeros (zero bytes
first).  For the one-byte salt 0x01 the two orders pass different salt
parameters to the keyed BLAKE2b call, exhibited here with a primitive
that reveals its salt parameter. -/
theorem getEncryptionKey_left_pad_counterexample :
    ((GetEncryptionKey (fun p => p.salt) [115] [1]) ==
      (deriveEncryptionKeyClaim (fun p => p.salt) [115] [1])) = false := by
  decide

/-- C6 amended: deriveEncryptionKey(serverSecret, salt) equals the
keyed BLAKE2b digest with key = first 32 bytes of
BLAKE2b-512(serverSecret), salt = the first 16 bytes of salt
left-aligned and zero-padded on the right when shorter than 16 bytes
(truncated when longer), personalization = etebase-auth left-aligned in
16 zero-padded bytes, output size 32, over empty input; and the
function is pure: equal inputs produce identical outputs.  Stated for
every interpretation of the external BLAKE2b primitive. -/
theorem getEncryptionKey_matches_spec_salt_right_padded :
    ∀ (blake2b : Blake2bParams → List Nat) (secret salt : List Nat),
      (GetEncryptionKey blake2b secret salt =
        deriveEncryptionKeyAmended blake2b secret salt)
      ∧ (∀ secret2 salt2 : List Nat, secret = secret2 → salt = salt2 →
          GetEncryptionKey blake2b secret salt =
            GetEncryptionKey blake2b secret2 salt2) := by
  intro f secret salt
  have hmin : min salt.length 16 = (salt.take 16).length := by
    rw [List.length_take, Nat.min_comm]
  have htake : salt.take (min salt.length 16) = salt.take 16 := by
    rcases Nat.le_total salt.length 16 with h | h
    · rw [Nat.min_eq_left h, List.take_length, List.take_of_length_le h]
    · rw [Nat.min_eq_right h]
  have htake2 : List.take (List.take 16 salt).length salt = List.take 16 salt := by
    rw [← hmin]; exact htake
  constructor
  · simp only [GetEncryptionKey, deriveEncryptionKeyAmended, hmin, htake2]
  · intro secret2 salt2 hs hl
    rw [hs, hl]

/-- Witness for C6 (amended): purity at the concrete input used by the
counterexample. -/
theorem getEncryptionKey_matches_spec_witness :
    GetEncryptionKey (fun p => p.salt) [115] [1] =
      GetEncryptionKey (fun p => p.salt) [115] [1] :=
  (getEncryptionKey_matches_spec_salt_right_padded (fun p => p.salt) [115] [1]).2
    [115] [1] rfl rfl
